import Mathlib

/-!
Shallow embedding of the data-access layer of the weather application
(`src/utils/api.ts`, `src/utils/apiCounter.ts`, `src/config/constants.ts`).

Conventions of the embedding:
* JavaScript `number` timestamps (milliseconds) are modelled by `Nat`;
  provider payload numbers are modelled by `Rat` (real arithmetic; the
  source uses IEEE doubles, whose rounding plays no role at the values
  the claims mention).
* A JavaScript `Map` is modelled by an association list in iteration
  order: `Map.set` on a fresh key appends at the back, `Map.set` on a
  present key updates in place, `Map.delete` removes the entry, and
  "the first key" is the head of the list.
* Stateful classes become explicit state records threaded through the
  operations; `Date.now()` / `new Date()` become explicit parameters.
* `fetch` is modelled by an oracle `outcomes : Nat → AttemptOutcome α`
  giving the result of each attempt of the retry loop.
-/

namespace WeatherApp

/-! ## Configuration constants (`src/config/constants.ts`) -/

/-- `CONFIG.API.RATE_LIMIT` -/
def RATE_LIMIT : Nat := 30

/-- `CONFIG.API.MIN_QUERY_LENGTH` -/
def MIN_QUERY_LENGTH : Nat := 2

/-- `CONFIG.CACHE.DURATION` (5 minutes in milliseconds) -/
def CACHE_DURATION : Nat := 5 * 60 * 1000

/-- `CONFIG.CACHE.MAX_SIZE` -/
def MAX_CACHE_SIZE : Nat := 50

/-- `CONFIG.CACHE.VERSION` -/
def CACHE_VERSION : String := "1.0.0"

/-- `RETRY_CONFIG.maxRetries` -/
def maxRetries : Nat := 2

/-- `RETRY_CONFIG.baseDelay` (milliseconds) -/
def baseDelay : Nat := 1000

/-- `ERROR_MESSAGES` from `src/config/constants.ts` -/
def EMPTY_CITY_MSG : String := "Please enter a city name"

def RATE_LIMIT_MSG : String := "Please wait a moment before trying again"

def NETWORK_ERROR_MSG : String := "Please check your internet connection"

def API_KEY_MISSING_MSG : String := "Weather API key is not configured"

/-- `getRetryDelay` (`api.ts` line 30): `min(baseDelay * 2^attempt, 5000)`. -/
def getRetryDelay (attempt : Nat) : Nat :=
  min (baseDelay * 2 ^ attempt) 5000

/-! ## RateLimiter (`api.ts` lines 46-57) -/

/-- The private fields `requests` and `lastReset` of class `RateLimiter`. -/
structure RateLimiterState where
  requests : Nat
  lastReset : Nat
  deriving Repr, DecidableEq

/-- `RateLimiter.canMakeRequest`, with `Date.now()` passed explicitly:
resets the window when more than 60000 ms have elapsed, then returns
`requests++ < RATE_LIMIT` (post-increment). -/
def canMakeRequest (s : RateLimiterState) (now : Nat) : Bool × RateLimiterState :=
  let s := if now - s.lastReset > 60000 then { requests := 0, lastReset := now } else s
  (decide (s.requests < RATE_LIMIT), { s with requests := s.requests + 1 })

/-- Run `canMakeRequest` once per timestamp of the list, collecting the
returned booleans. -/
def runLimiter (s : RateLimiterState) : List Nat → List Bool × RateLimiterState
  | [] => ([], s)
  | t :: ts =>
    let (b, s') := canMakeRequest s t
    let (bs, s'') := runLimiter s' ts
    (b :: bs, s'')

/-! ## JavaScript `Map` model -/

/-- `Map.get`: the value of the first (only) entry with the given key. -/
def mapGet {β : Type} : List (String × β) → String → Option β
  | [], _ => none
  | (k', v) :: rest, k => if k' = k then some v else mapGet rest k

/-- `Map.set`: update in place when the key is present, append otherwise. -/
def mapSet {β : Type} : List (String × β) → String → β → List (String × β)
  | [], k, v => [(k, v)]
  | (k', v') :: rest, k, v =>
    if k' = k then (k, v) :: rest else (k', v') :: mapSet rest k v

/-- `Map.delete`: remove the (first) entry with the given key. -/
def mapDelete {β : Type} : List (String × β) → String → List (String × β)
  | [], _ => []
  | (k', v') :: rest, k => if k' = k then rest else (k', v') :: mapDelete rest k

/-! ## LRUCache (`api.ts` lines 59-99) -/

/-- `CacheEntry<T>` from `src/types/weather.ts`. -/
structure CacheEntry (α : Type) where
  data : α
  timestamp : Nat
  version : String
  deriving Repr, DecidableEq

/-- A cache is a `Map` from string keys to entries, in iteration order. -/
abbrev Cache (α : Type) := List (String × CacheEntry α)

namespace LRUCache

/-- `LRUCache.set` (`api.ts` lines 68-80): when at capacity, delete the
first key of the map (the JS code skips the delete when `firstKey` is
falsy, i.e. the empty string), then insert the new entry stamped with
`Date.now()` and the live `CONFIG.CACHE.VERSION`. -/
def set {α : Type} (c : Cache α) (maxSize : Nat) (key : String) (value : α)
    (now : Nat) (liveVersion : String) : Cache α :=
  let c :=
    if c.length ≥ maxSize then
      match c.head? with
      | some (firstKey, _) => if firstKey = "" then c else mapDelete c firstKey
      | none => c
    else c
  mapSet c key { data := value, timestamp := now, version := liveVersion }

/-- `LRUCache.get` (`api.ts` lines 82-94): a version-mismatched entry is
deleted and reported absent; a matching entry is moved to the back
(most-recently-used position) and returned. -/
def get {α : Type} (c : Cache α) (key : String) (liveVersion : String) :
    Option (CacheEntry α) × Cache α :=
  match mapGet c key with
  | none => (none, c)
  | some entry =>
    if entry.version ≠ liveVersion then (none, mapDelete c key)
    else (some entry, mapSet (mapDelete c key) key entry)

end LRUCache

/-- `isCacheValid` (`api.ts` line 107): `Date.now() - timestamp < CONFIG.CACHE.DURATION`. -/
def isCacheValid (now timestamp : Nat) : Bool :=
  decide (now - timestamp < CACHE_DURATION)

/-! ## String helpers: `String.prototype.includes` and `encodeURIComponent` -/

/-- The whitespace class of JavaScript `String.prototype.trim`. -/
def isJSWhitespace (c : Char) : Bool :=
  c = ' ' || c = '\t' || c = '\n' || c = '\r' ||
    c = Char.ofNat 11 || c = Char.ofNat 12 || c = Char.ofNat 160 ||
    c = Char.ofNat 0xFEFF || c = Char.ofNat 0x2028 || c = Char.ofNat 0x2029

/-- JavaScript `s.trim()`: strip whitespace from both ends. -/
def jsTrim (s : String) : String :=
  ⟨((s.data.dropWhile isJSWhitespace).reverse.dropWhile isJSWhitespace).reverse⟩

/-- JavaScript `s.toLowerCase()` (ASCII case mapping, which covers every
string the claims exercise). -/
def jsToLower (s : String) : String :=
  ⟨s.data.map Char.toLower⟩

/-- Whether the first character list is an initial segment of the second. -/
def isPre : List Char → List Char → Bool
  | [], _ => true
  | _ :: _, [] => false
  | a :: as, b :: bs => a = b && isPre as bs

/-- Whether `pat` occurs as a contiguous segment of `s`. -/
def hasSub (pat : List Char) : List Char → Bool
  | [] => decide (pat = [])
  | c :: rest => isPre pat (c :: rest) || hasSub pat rest

/-- JavaScript `s.includes(pat)`. -/
def strIncludes (s pat : String) : Bool :=
  hasSub pat.data s.data

/-- Characters `encodeURIComponent` leaves unescaped:
`A-Z a-z 0-9 - _ . ! ~ * ' ( )`. -/
def isUnescapedURI (c : Char) : Bool :=
  c.isAlpha || c.isDigit ||
    c ∈ ['-', '_', '.', '!', '~', '*', Char.ofNat 39, '(', ')']

/-- The UTF-8 bytes of a character. -/
def utf8Bytes (c : Char) : List Nat :=
  let n := c.toNat
  if n < 0x80 then [n]
  else if n < 0x800 then
    [0xC0 + n / 0x40, 0x80 + n % 0x40]
  else if n < 0x10000 then
    [0xE0 + n / 0x1000, 0x80 + n / 0x40 % 0x40, 0x80 + n % 0x40]
  else
    [0xF0 + n / 0x40000, 0x80 + n / 0x1000 % 0x40, 0x80 + n / 0x40 % 0x40,
      0x80 + n % 0x40]

/-- Upper-case hexadecimal digit. -/
def hexDigit (n : Nat) : Char :=
  if n < 10 then Char.ofNat (48 + n) else Char.ofNat (55 + n)

/-- Percent-escape one byte as `%HH`. -/
def pctByte (b : Nat) : List Char :=
  ['%', hexDigit (b / 16), hexDigit (b % 16)]

/-- JavaScript `encodeURIComponent`. -/
def encodeURIComponent (s : String) : String :=
  ⟨s.data.flatMap fun c =>
    if isUnescapedURI c then [c] else (utf8Bytes c).flatMap pctByte⟩

/-- `sanitizeInput` (`api.ts` lines 111-114):
`encodeURIComponent(input.trim().toLowerCase())`, with the empty (falsy)
string mapped to itself. -/
def sanitizeInput (input : String) : String :=
  if input = "" then "" else encodeURIComponent (jsToLower (jsTrim input))

/-! ## fetchApi retry loop (`api.ts` lines 130-186) -/

/-- The outcome of one attempt of the retry loop, as observed at the
`catch` boundary: either the parsed body, or a thrown `Error` with its
`name` and `message` (a timeout surfaces as name `AbortError`; a non-2xx
response surfaces as the provider message or
`errorMessage (Status: ...)`; a fetch-level failure surfaces as the
runtime's message). -/
inductive AttemptOutcome (α : Type) where
  | ok (data : α)
  | err (name : String) (msg : String)
  deriving Repr, DecidableEq

/-- The result of `fetchApi`: the parsed body or the thrown error message. -/
inductive FetchResult (α : Type) where
  | ok (data : α)
  | error (msg : String)
  deriving Repr, DecidableEq

/-- The retry condition of `api.ts` lines 166-171: an attempt is retried
only when the error is an abort (timeout) or its message contains the
substring `"network"`; every throwable reaching this `catch` is an
`Error` instance. -/
def isRetryable (name msg : String) : Bool :=
  name = "AbortError" || strIncludes msg "network"

/-- The observable trace of one `fetchApi` run: its result, how many
attempts were made, the backoff delays waited between attempts, and how
often `apiCounter.increment()` was called. -/
structure FetchTrace (α : Type) where
  result : FetchResult α
  attempts : Nat
  delays : List Nat
  increments : Nat
  deriving Repr, DecidableEq

/-- The `for` loop of `fetchApi` (`api.ts` lines 137-182) from attempt
index `attempt` with `remaining` further attempts allowed
(`remaining = maxRetries - attempt`): the counter is incremented on
attempt 0 only; a success returns the data; a non-retryable error is
rethrown at once; on the last attempt a retryable error becomes the
generic network error; otherwise the loop waits `getRetryDelay attempt`
and retries. -/
def fetchGo {α : Type} (outcomes : Nat → AttemptOutcome α) :
    Nat → Nat → FetchTrace α
  | attempt, remaining =>
    let inc := if attempt = 0 then 1 else 0
    match outcomes attempt with
    | .ok d => ⟨.ok d, 1, [], inc⟩
    | .err name msg =>
      if isRetryable name msg = false then ⟨.error msg, 1, [], inc⟩
      else
        match remaining with
        | 0 => ⟨.error NETWORK_ERROR_MSG, 1, [], inc⟩
        | r + 1 =>
          let t := fetchGo outcomes (attempt + 1) r
          ⟨t.result, t.attempts + 1, getRetryDelay attempt :: t.delays,
            inc + t.increments⟩

/-- `fetchApi` (`api.ts` lines 130-186): the rate limiter is consulted
first (its counter advances even on rejection); a rejection throws the
rate-limit error with no attempt made; otherwise the retry loop runs. -/
def fetchApiTrace {α : Type} (outcomes : Nat → AttemptOutcome α)
    (lim : RateLimiterState) (nowMs : Nat) : FetchTrace α × RateLimiterState :=
  let (okReq, lim') := canMakeRequest lim nowMs
  if okReq then (fetchGo outcomes 0 maxRetries, lim')
  else (⟨.error RATE_LIMIT_MSG, 0, [], 0⟩, lim')

/-! ## ApiCallCounter (`src/utils/apiCounter.ts`) -/

/-- The month/year of a `Date`, as read by `getMonth()` / `getFullYear()`. -/
structure SimpleDate where
  year : Int
  month : Nat
  deriving Repr, DecidableEq

/-- The persisted state `{ count, lastReset }` of `ApiCallCounter`,
with `lastReset` represented by its calendar month and year. -/
structure ApiCounterState where
  count : Nat
  lastReset : SimpleDate
  deriving Repr, DecidableEq

/-- `checkAndResetMonthly` (`apiCounter.ts` lines 44-57): reset to
`{0, now}` when the current month or year differs from `lastReset`'s. -/
def checkAndResetMonthly (s : ApiCounterState) (now : SimpleDate) :
    ApiCounterState :=
  if s.lastReset.month ≠ now.month ∨ s.lastReset.year ≠ now.year then
    { count := 0, lastReset := now }
  else s

namespace ApiCounter

/-- `ApiCallCounter.increment` (`apiCounter.ts` lines 59-63). -/
def increment (s : ApiCounterState) (now : SimpleDate) : ApiCounterState :=
  let s := checkAndResetMonthly s now
  { s with count := s.count + 1 }

/-- `ApiCallCounter.getCount` (`apiCounter.ts` lines 65-68); the rollover
check mutates the state, so the updated state is returned too. -/
def getCount (s : ApiCounterState) (now : SimpleDate) : Nat × ApiCounterState :=
  let s := checkAndResetMonthly s now
  (s.count, s)

end ApiCounter

/-- Apply `ApiCounter.increment` `n` times at the same instant. -/
def applyIncrements (s : ApiCounterState) (now : SimpleDate) : Nat → ApiCounterState
  | 0 => s
  | n + 1 => applyIncrements (ApiCounter.increment s now) now n

/-- A call against the counter: `increment()` or `getCount()`. -/
inductive CounterOp where
  | inc
  | read
  deriving Repr, DecidableEq

/-- Run a sequence of counter calls, each at its own date, collecting the
values returned by the `getCount` calls. -/
def runCounter (s : ApiCounterState) :
    List (CounterOp × SimpleDate) → List Nat × ApiCounterState
  | [] => ([], s)
  | (op, d) :: rest =>
    match op with
    | .inc => runCounter (ApiCounter.increment s d) rest
    | .read =>
      let (n, s') := ApiCounter.getCount s d
      let (ns, s'') := runCounter s' rest
      (n :: ns, s'')

/-! ## Provider payloads and normalized schemas
(`src/types/api.ts`, `src/types/weather.ts`) -/

/-- JavaScript `Math.round`: round half toward positive infinity.
The result stays a `number`, modelled by `Rat`. -/
def jsRound (q : Rat) : Rat :=
  ((⌊q + 1 / 2⌋ : Int) : Rat)

/-- A provider condition object `{ text, icon, code }`. -/
structure ConditionAPI where
  text : String
  icon : String
  code : Int
  deriving Repr, DecidableEq

/-- The `location` part of `WeatherApiResponse`. -/
structure LocationAPI where
  name : String
  region : String
  country : String
  lat : Rat
  lon : Rat
  tz_id : String
  localtime : String
  deriving Repr, DecidableEq

/-- The `current` part of `WeatherApiResponse`. -/
structure CurrentAPI where
  temp_c : Rat
  temp_f : Rat
  condition : ConditionAPI
  wind_kph : Rat
  wind_degree : Rat
  pressure_mb : Rat
  humidity : Rat
  feelslike_c : Rat
  deriving Repr, DecidableEq

/-- `WeatherApiResponse` from `src/types/api.ts`. -/
structure WeatherApiResponse where
  location : LocationAPI
  current : CurrentAPI
  deriving Repr, DecidableEq

/-- `HourlyWeather` from `src/types/weather.ts` (also the shape of the
provider's hourly entries). -/
structure HourlyWeather where
  time : String
  temp_c : Rat
  temp_f : Rat
  condition : ConditionAPI
  wind_kph : Rat
  wind_degree : Rat
  humidity : Rat
  chance_of_rain : Rat
  chance_of_snow : Rat
  is_day : Rat
  deriving Repr, DecidableEq

/-- The `day` summary of a provider forecast day. -/
structure DayInfo where
  maxtemp_c : Rat
  mintemp_c : Rat
  avgtemp_c : Rat
  condition : ConditionAPI
  deriving Repr, DecidableEq

/-- One element of the provider's `forecast.forecastday` array (also the
shape of `DayForecast` in the normalized schema). -/
structure ForecastDayAPI where
  date : String
  day : DayInfo
  hour : List HourlyWeather
  deriving Repr, DecidableEq

/-- The `forecast` wrapper object. -/
structure ForecastObj where
  forecastday : List ForecastDayAPI
  deriving Repr, DecidableEq

/-- `ForecastApiResponse` from `src/types/api.ts`. -/
structure ForecastApiResponse where
  location : LocationAPI
  current : CurrentAPI
  forecast : ForecastObj
  deriving Repr, DecidableEq

/-- `CitySearchApiResponse` from `src/types/api.ts`. -/
structure CitySearchApiResponse where
  id : Rat
  name : String
  region : String
  country : String
  lat : Rat
  lon : Rat
  url : String
  deriving Repr, DecidableEq

/-- `WeatherCondition` from `src/types/weather.ts`. -/
structure WeatherCondition where
  id : Int
  main : String
  description : String
  icon : String
  deriving Repr, DecidableEq

/-- `WeatherMetrics` from `src/types/weather.ts`. -/
structure WeatherMetrics where
  temp : Rat
  feels_like : Rat
  temp_min : Rat
  temp_max : Rat
  pressure : Rat
  humidity : Rat
  deriving Repr, DecidableEq

/-- `WindInfo` from `src/types/weather.ts`. -/
structure WindInfo where
  speed : Rat
  deg : Rat
  deriving Repr, DecidableEq

/-- The `sys` part of `WeatherData`. -/
structure SysInfo where
  name : String
  country : String
  deriving Repr, DecidableEq

/-- `WeatherData` from `src/types/weather.ts`. -/
structure WeatherData where
  weather : List WeatherCondition
  main : WeatherMetrics
  wind : WindInfo
  name : String
  sys : SysInfo
  deriving Repr, DecidableEq

/-- One element of `ForecastData.list`. -/
structure ForecastListItem where
  dt : Rat
  main : WeatherMetrics
  weather : List WeatherCondition
  wind : WindInfo
  dt_txt : String
  deriving Repr, DecidableEq

/-- The `city` part of `ForecastData`. -/
structure CityInfo where
  name : String
  country : String
  deriving Repr, DecidableEq

/-- `LocationInfo` from `src/types/weather.ts`. -/
structure LocationInfo where
  timezone : String
  localtime : String
  country : String
  name : String
  region : String
  deriving Repr, DecidableEq

/-- `ForecastData` from `src/types/weather.ts`. -/
structure ForecastData where
  list : List ForecastListItem
  city : CityInfo
  forecast : ForecastObj
  location : LocationInfo
  deriving Repr, DecidableEq

/-! ## Response transforms -/

/-- The transform of `getWeatherData` (`api.ts` lines 257-281): rounded
Celsius temperatures, wind in m/s via `Math.round(wind_kph / 3.6)`. -/
def transformWeather (data : WeatherApiResponse) : WeatherData where
  weather := [{ id := data.current.condition.code,
                main := data.current.condition.text,
                description := data.current.condition.text,
                icon := data.current.condition.icon }]
  main := { temp := jsRound data.current.temp_c,
            feels_like := jsRound data.current.feelslike_c,
            temp_min := jsRound data.current.temp_c,
            temp_max := jsRound data.current.temp_c,
            pressure := data.current.pressure_mb,
            humidity := data.current.humidity }
  wind := { speed := jsRound (data.current.wind_kph / (36 / 10 : Rat)),
            deg := data.current.wind_degree }
  name := data.location.name
  sys := { name := data.location.name, country := data.location.country }

/-- The transform of `getForecastData` (`api.ts` lines 316-373).
`parseDateMs` stands for the host's `new Date(s).getTime()`. -/
def transformForecast (data : ForecastApiResponse)
    (parseDateMs : String → Rat) : ForecastData where
  list := data.forecast.forecastday.map fun day =>
    { dt := parseDateMs day.date / 1000,
      main := { temp := jsRound day.day.avgtemp_c,
                feels_like := jsRound day.day.avgtemp_c,
                temp_min := jsRound day.day.mintemp_c,
                temp_max := jsRound day.day.maxtemp_c,
                pressure := 1015,
                humidity := 0 },
      weather := [{ id := day.day.condition.code,
                    main := day.day.condition.text,
                    description := day.day.condition.text,
                    icon := day.day.condition.icon }],
      wind := { speed := 0, deg := 0 },
      dt_txt := day.date }
  city := { name := data.location.name, country := data.location.country }
  forecast := { forecastday := data.forecast.forecastday.map fun day =>
    { date := day.date,
      day := { maxtemp_c := day.day.maxtemp_c,
               mintemp_c := day.day.mintemp_c,
               avgtemp_c := day.day.avgtemp_c,
               condition := day.day.condition },
      hour := day.hour.map fun hour =>
        { time := hour.time,
          temp_c := hour.temp_c,
          temp_f := hour.temp_f,
          condition := hour.condition,
          wind_kph := hour.wind_kph,
          wind_degree := hour.wind_degree,
          humidity := hour.humidity,
          chance_of_rain := hour.chance_of_rain,
          chance_of_snow := hour.chance_of_snow,
          is_day := hour.is_day } } }
  location := { timezone := data.location.tz_id,
                localtime := data.location.localtime,
                country := data.location.country,
                name := data.location.name,
                region := data.location.region }

/-! ## Service layer (`searchCities`, `getWeatherData`, `getForecastData`) -/

/-- The union of value types stored in `weatherCache`
(`LRUCache<WeatherData | ForecastData>`, `api.ts` line 103). The
source reads a hit back with an unchecked cast (`cached.data as ...`);
the model returns the stored variant as-is. -/
inductive CachedData where
  | weather (w : WeatherData)
  | forecast (f : ForecastData)
  deriving Repr, DecidableEq

/-- The module-level mutable state of the data-access layer:
`cityCache`, `weatherCache`, `rateLimiter` (`api.ts` lines 102-104) and
the `apiCounter` singleton. -/
structure ApiState where
  cityCache : Cache (List CitySearchApiResponse)
  weatherCache : Cache CachedData
  limiter : RateLimiterState
  counter : ApiCounterState
  deriving Repr, DecidableEq

/-- `fetchApi` acting on the module state: the rate limiter advances, and
the usage counter receives the increments of the retry loop. -/
def fetchApiM {α : Type} (outcomes : Nat → AttemptOutcome α) (st : ApiState)
    (nowMs : Nat) (nowDate : SimpleDate) : FetchResult α × ApiState :=
  let (t, lim') := fetchApiTrace outcomes st.limiter nowMs
  (t.result,
   { st with limiter := lim',
             counter := applyIncrements st.counter nowDate t.increments })

/-- The `try`-block of `searchCities` (`api.ts` lines 220-229): fetch,
cache the result under the sanitized query, return it; any thrown error
is caught and degraded to the empty list. -/
def searchCitiesFetch (sanitizedQuery : String) (st : ApiState) (nowMs : Nat)
    (nowDate : SimpleDate)
    (outcomes : Nat → AttemptOutcome (List CitySearchApiResponse)) :
    Except String (List CitySearchApiResponse) × ApiState :=
  let (res, st') := fetchApiM outcomes st nowMs nowDate
  match res with
  | .ok data =>
    let newCache :=
      LRUCache.set st'.cityCache MAX_CACHE_SIZE sanitizedQuery data nowMs
        CACHE_VERSION
    (.ok data, { st' with cityCache := newCache })
  | .error _ => (.ok [], st')

/-- `searchCities` (`api.ts` lines 208-230). `apiKeyPresent` models
`import.meta.env.VITE_WEATHER_API_KEY` being set; `validateApiKey()`
throws (uncaught here) when it is absent. -/
def searchCities (query : String) (apiKeyPresent : Bool) (st : ApiState)
    (nowMs : Nat) (nowDate : SimpleDate)
    (outcomes : Nat → AttemptOutcome (List CitySearchApiResponse)) :
    Except String (List CitySearchApiResponse) × ApiState :=
  if jsTrim query = "" ∨ query.length < MIN_QUERY_LENGTH then (.ok [], st)
  else if ¬apiKeyPresent then (.error API_KEY_MISSING_MSG, st)
  else
    let sanitizedQuery := sanitizeInput query
    let (cached, cache') := LRUCache.get st.cityCache sanitizedQuery CACHE_VERSION
    let st := { st with cityCache := cache' }
    match cached with
    | some entry =>
      if isCacheValid nowMs entry.timestamp then (.ok entry.data, st)
      else searchCitiesFetch sanitizedQuery st nowMs nowDate outcomes
    | none => searchCitiesFetch sanitizedQuery st nowMs nowDate outcomes

/-- The fetch-and-transform path of `getWeatherData`
(`api.ts` lines 253-284). -/
def getWeatherDataFetch (cacheKey : String) (st : ApiState) (nowMs : Nat)
    (nowDate : SimpleDate) (outcomes : Nat → AttemptOutcome WeatherApiResponse) :
    Except String CachedData × ApiState :=
  let (res, st') := fetchApiM outcomes st nowMs nowDate
  match res with
  | .ok data =>
    let transformedData := transformWeather data
    let newCache :=
      LRUCache.set st'.weatherCache MAX_CACHE_SIZE cacheKey
        (.weather transformedData) nowMs CACHE_VERSION
    (.ok (.weather transformedData), { st' with weatherCache := newCache })
  | .error msg => (.error msg, st')

/-- `getWeatherData` (`api.ts` lines 238-285). -/
def getWeatherData (city : String) (apiKeyPresent : Bool) (st : ApiState)
    (nowMs : Nat) (nowDate : SimpleDate)
    (outcomes : Nat → AttemptOutcome WeatherApiResponse) :
    Except String CachedData × ApiState :=
  if jsTrim city = "" then (.error EMPTY_CITY_MSG, st)
  else if ¬apiKeyPresent then (.error API_KEY_MISSING_MSG, st)
  else
    let cacheKey := "weather_" ++ sanitizeInput city
    let (cached, cache') := LRUCache.get st.weatherCache cacheKey CACHE_VERSION
    let st := { st with weatherCache := cache' }
    match cached with
    | some entry =>
      if isCacheValid nowMs entry.timestamp then (.ok entry.data, st)
      else getWeatherDataFetch cacheKey st nowMs nowDate outcomes
    | none => getWeatherDataFetch cacheKey st nowMs nowDate outcomes

/-- The fetch-validate-transform path of `getForecastData`
(`api.ts` lines 308-376): the shape check
`!data.forecast?.forecastday?.[0]?.hour` fails exactly when the typed
`forecastday` array is empty. -/
def getForecastDataFetch (cacheKey : String) (st : ApiState) (nowMs : Nat)
    (nowDate : SimpleDate) (parseDateMs : String → Rat)
    (outcomes : Nat → AttemptOutcome ForecastApiResponse) :
    Except String CachedData × ApiState :=
  let (res, st') := fetchApiM outcomes st nowMs nowDate
  match res with
  | .ok data =>
    match data.forecast.forecastday with
    | [] => (.error "Invalid forecast data received from API", st')
    | _ :: _ =>
      let transformedData := transformForecast data parseDateMs
      let newCache :=
        LRUCache.set st'.weatherCache MAX_CACHE_SIZE cacheKey
          (.forecast transformedData) nowMs CACHE_VERSION
      (.ok (.forecast transformedData), { st' with weatherCache := newCache })
  | .error msg => (.error msg, st')

/-- The mocked current-conditions payload of the spec scenario:
`temp_c: 18.6, wind_kph: 10.8` for a Paris query. -/
def parisPayload : WeatherApiResponse where
  location := { name := "Paris", region := "Ile-de-France", country := "France",
                lat := 4885 / 100, lon := 235 / 100, tz_id := "Europe/Paris",
                localtime := "2026-10-11 12:00" }
  current := { temp_c := 186 / 10, temp_f := 6548 / 100,
               condition := { text := "Partly cloudy", icon := "//cdn/116.png",
                              code := 1003 },
               wind_kph := 108 / 10, wind_degree := 250, pressure_mb := 1015,
               humidity := 60, feelslike_c := 182 / 10 }

/-- `getForecastData` (`api.ts` lines 293-377). -/
def getForecastData (city : String) (apiKeyPresent : Bool) (st : ApiState)
    (nowMs : Nat) (nowDate : SimpleDate) (parseDateMs : String → Rat)
    (outcomes : Nat → AttemptOutcome ForecastApiResponse) :
    Except String CachedData × ApiState :=
  if jsTrim city = "" then (.error EMPTY_CITY_MSG, st)
  else if ¬apiKeyPresent then (.error API_KEY_MISSING_MSG, st)
  else
    let cacheKey := "forecast_" ++ sanitizeInput city
    let (cached, cache') := LRUCache.get st.weatherCache cacheKey CACHE_VERSION
    let st := { st with weatherCache := cache' }
    match cached with
    | some entry =>
      if isCacheValid nowMs entry.timestamp then (.ok entry.data, st)
      else getForecastDataFetch cacheKey st nowMs nowDate parseDateMs outcomes
    | none => getForecastDataFetch cacheKey st nowMs nowDate parseDateMs outcomes

/-! ## Lemmas about the `Map` model -/

theorem mapGet_mapSet_self {β : Type} (m : List (String × β)) (k : String) (v : β) :
    mapGet (mapSet m k v) k = some v := by
  induction m with
  | nil => simp [mapSet, mapGet]
  | cons p m ih =>
    obtain ⟨k', v'⟩ := p
    by_cases h : k' = k <;> simp [mapSet, mapGet, h, ih]

theorem mapGet_mapSet_ne {β : Type} (m : List (String × β)) (k q : String) (v : β)
    (h : k ≠ q) : mapGet (mapSet m k v) q = mapGet m q := by
  induction m with
  | nil => simp [mapSet, mapGet, h]
  | cons p m ih =>
    obtain ⟨k', v'⟩ := p
    by_cases h' : k' = k
    · subst h'; simp [mapSet, mapGet, h]
    · simp only [mapSet, if_neg h', mapGet]
      rw [ih]

theorem mapGet_mapDelete_ne {β : Type} (m : List (String × β)) (k q : String)
    (h : q ≠ k) : mapGet (mapDelete m k) q = mapGet m q := by
  induction m with
  | nil => simp [mapDelete]
  | cons p m ih =>
    obtain ⟨k', v'⟩ := p
    by_cases h' : k' = k
    · simp only [mapDelete, if_pos h']
      have hq : ¬ (k' = q) := by rw [h']; exact fun hh => h hh.symm
      simp [mapGet, hq]
    · simp only [mapDelete, if_neg h', mapGet]
      rw [ih]

theorem mapGet_eq_none_of_not_mem {β : Type} (m : List (String × β)) (k : String)
    (h : k ∉ m.map Prod.fst) : mapGet m k = none := by
  induction m with
  | nil => simp [mapGet]
  | cons p m ih =>
    obtain ⟨k', v'⟩ := p
    simp only [List.map_cons, List.mem_cons] at h
    push_neg at h
    have hk : ¬ (k' = k) := fun hh => h.1 hh.symm
    simp [mapGet, hk, ih h.2]

theorem mapSet_eq_append_of_not_mem {β : Type} (m : List (String × β))
    (k : String) (v : β) (h : k ∉ m.map Prod.fst) :
    mapSet m k v = m ++ [(k, v)] := by
  induction m with
  | nil => simp [mapSet]
  | cons p m ih =>
    obtain ⟨k', v'⟩ := p
    simp only [List.map_cons, List.mem_cons] at h
    push_neg at h
    have hk : ¬ (k' = k) := fun hh => h.1 hh.symm
    simp [mapSet, hk, ih h.2]

theorem mapGet_append_of_not_mem {β : Type} (m m' : List (String × β))
    (k : String) (h : k ∉ m.map Prod.fst) :
    mapGet (m ++ m') k = mapGet m' k := by
  induction m with
  | nil => simp
  | cons p m ih =>
    obtain ⟨k', v'⟩ := p
    simp only [List.map_cons, List.mem_cons] at h
    push_neg at h
    have hk : ¬ (k' = k) := fun hh => h.1 hh.symm
    simp [mapGet, hk, ih h.2]

theorem mapGet_mapDelete_self_of_nodup {β : Type} (m : List (String × β))
    (k : String) (hnd : (m.map Prod.fst).Nodup) :
    mapGet (mapDelete m k) k = none := by
  induction m with
  | nil => simp [mapDelete, mapGet]
  | cons p m ih =>
    obtain ⟨k', v'⟩ := p
    simp only [List.map_cons, List.nodup_cons] at hnd
    by_cases h' : k' = k
    · subst h'
      simp only [mapDelete, if_pos rfl]
      exact mapGet_eq_none_of_not_mem m k' hnd.1
    · simp only [mapDelete, if_neg h', mapGet]
      exact ih hnd.2

/-! ## Claim theorems: LRUCache -/

/-- C6: for every key and value, a `set(key, value)` followed immediately
by a `get(key)`, performed within the TTL and while the live cache
version equals the version stored at set time, returns an entry whose
data is exactly the stored value. -/
theorem cache_set_then_get {α : Type} (c : Cache α) (maxSize : Nat) (key : String)
    (v : α) (now now' : Nat) (ver : String)
    (h : now' - now < CACHE_DURATION) :
    (LRUCache.get (LRUCache.set c maxSize key v now ver) key ver).1
      = some { data := v, timestamp := now, version := ver }
    ∧ isCacheValid now' now = true := by
  have hget : mapGet (LRUCache.set c maxSize key v now ver) key
      = some { data := v, timestamp := now, version := ver } := by
    unfold LRUCache.set
    exact mapGet_mapSet_self _ _ _
  constructor
  · simp [LRUCache.get, hget]
  · simpa [isCacheValid] using h

/-- Witness for C6: a concrete `set` then `get` on an empty cache. -/
theorem cache_set_then_get_witness :
    (LRUCache.get (LRUCache.set ([] : Cache Nat) 50 "weather_paris" 7 1000 "1.0.0")
        "weather_paris" "1.0.0").1
      = some { data := 7, timestamp := 1000, version := "1.0.0" }
    ∧ isCacheValid 2000 1000 = true :=
  cache_set_then_get [] 50 "weather_paris" 7 1000 2000 "1.0.0" (by decide)

/-- C7: once the live version no longer equals an entry's stored version,
`get` on that key returns absent and removes the entry, regardless of
whether the entry's timestamp is still within the TTL (no freshness
hypothesis appears). -/
theorem cache_version_change_absent {α : Type} (c : Cache α) (key : String)
    (e : CacheEntry α) (liveVer : String)
    (hget : mapGet c key = some e) (hver : e.version ≠ liveVer)
    (hnd : (c.map Prod.fst).Nodup) :
    (LRUCache.get c key liveVer).1 = none
    ∧ (LRUCache.get c key liveVer).2 = mapDelete c key
    ∧ mapGet (LRUCache.get c key liveVer).2 key = none := by
  have h1 : LRUCache.get c key liveVer = (none, mapDelete c key) := by
    simp [LRUCache.get, hget, hver]
  refine ⟨by rw [h1], by rw [h1], ?_⟩
  rw [h1]
  exact mapGet_mapDelete_self_of_nodup c key hnd

/-- Witness for C7: an entry stored under version `0.9.0`, read while the
live version is `1.0.0`, within the TTL. -/
theorem cache_version_change_absent_witness :
    (LRUCache.get [("k", ({ data := 5, timestamp := 100, version := "0.9.0" } :
        CacheEntry Nat))] "k" "1.0.0").1 = none
    ∧ (LRUCache.get [("k", ({ data := 5, timestamp := 100, version := "0.9.0" } :
        CacheEntry Nat))] "k" "1.0.0").2
      = mapDelete [("k", ({ data := 5, timestamp := 100, version := "0.9.0" } :
        CacheEntry Nat))] "k"
    ∧ mapGet (LRUCache.get [("k", ({ data := 5, timestamp := 100, version := "0.9.0" } :
        CacheEntry Nat))] "k" "1.0.0").2 "k" = none :=
  cache_version_change_absent _ "k" _ "1.0.0" rfl (by decide) (by decide)

/-- C1 counterexample: with capacity 2, insert `a` then `b`, perform a
`get` hit on the oldest-inserted key `a`, then `set` a fresh key `c` at
capacity. The claim says the oldest-inserted entry `a` is evicted; the
code evicts `b` instead, because the hit moved `a` to the back of the
`Map` order — the entry `a` is still present and `b` is gone. -/
theorem lru_eviction_insertion_order_cex :
    (mapGet (LRUCache.set
        ((LRUCache.get
            (LRUCache.set (LRUCache.set ([] : Cache Nat) 2 "a" 1 100 CACHE_VERSION)
              2 "b" 2 200 CACHE_VERSION)
            "a" CACHE_VERSION).2)
        2 "c" 3 300 CACHE_VERSION) "b" = none)
    ∧ ((mapGet (LRUCache.set
        ((LRUCache.get
            (LRUCache.set (LRUCache.set ([] : Cache Nat) 2 "a" 1 100 CACHE_VERSION)
              2 "b" 2 200 CACHE_VERSION)
            "a" CACHE_VERSION).2)
        2 "c" 3 300 CACHE_VERSION) "a").isSome = true) := by
  decide

/-- C1 amended: `set` at capacity evicts the entry at the front of the
`Map`'s iteration order — the least-recently promoted-or-inserted entry —
and a `get` hit moves its entry to the back of that order; in particular
a `get` hit on the oldest-inserted key does protect it, and the next
`set` at capacity evicts the next entry in order instead. -/
theorem lru_evicts_front_and_promotion_protects {α : Type}
    (k k1 key : String) (e e1 : CacheEntry α) (rest : Cache α)
    (maxSize : Nat) (v : α) (now : Nat)
    (hver : e.version = CACHE_VERSION)
    (hnd : (((k, e) :: (k1, e1) :: rest).map Prod.fst).Nodup)
    (hk1 : k1 ≠ "")
    (hkeyk : key ≠ k) (hkeyk1 : key ≠ k1)
    (hcap : maxSize ≤ ((k, e) :: (k1, e1) :: rest).length) :
    mapGet (LRUCache.set
        ((LRUCache.get ((k, e) :: (k1, e1) :: rest) k CACHE_VERSION).2)
        maxSize key v now CACHE_VERSION) k = some e
    ∧ mapGet (LRUCache.set
        ((LRUCache.get ((k, e) :: (k1, e1) :: rest) k CACHE_VERSION).2)
        maxSize key v now CACHE_VERSION) k1 = none := by
  simp only [List.map_cons, List.nodup_cons, List.mem_cons] at hnd
  push_neg at hnd
  obtain ⟨⟨hkk1, hkrest⟩, hk1rest, hndrest⟩ := hnd
  have hget : LRUCache.get ((k, e) :: (k1, e1) :: rest) k CACHE_VERSION
      = (some e, (k1, e1) :: (rest ++ [(k, e)])) := by
    have h1 : mapGet ((k, e) :: (k1, e1) :: rest) k = some e := by simp [mapGet]
    have h2 : mapDelete ((k, e) :: (k1, e1) :: rest) k = (k1, e1) :: rest := by
      simp [mapDelete]
    have h3 : mapSet ((k1, e1) :: rest) k e = ((k1, e1) :: rest) ++ [(k, e)] := by
      apply mapSet_eq_append_of_not_mem
      simp only [List.map_cons, List.mem_cons]
      push_neg
      exact ⟨hkk1, hkrest⟩
    simp [LRUCache.get, h1, hver, h2, h3]
  have hlen : ((k1, e1) :: (rest ++ [(k, e)])).length ≥ maxSize := by
    simp only [List.length_cons, List.length_append, List.length_cons,
      List.length_nil] at hcap ⊢
    omega
  have hset : LRUCache.set ((k1, e1) :: (rest ++ [(k, e)])) maxSize key v now
      CACHE_VERSION
      = mapSet (rest ++ [(k, e)]) key
          { data := v, timestamp := now, version := CACHE_VERSION } := by
    simp only [LRUCache.set, List.head?, if_pos hlen, hk1, if_neg hk1, mapDelete,
      if_pos rfl]
    simp
  rw [hget, hset]
  constructor
  · rw [mapGet_mapSet_ne _ key k _ hkeyk,
      mapGet_append_of_not_mem rest [(k, e)] k hkrest]
    simp [mapGet]
  · rw [mapGet_mapSet_ne _ key k1 _ hkeyk1]
    apply mapGet_eq_none_of_not_mem
    simp only [List.map_append, List.map_cons, List.map_nil, List.mem_append,
      List.mem_cons, List.not_mem_nil]
    push_neg
    exact ⟨hk1rest, fun h => hkk1 h.symm, fun h => h⟩

/-- Witness for the amended C1 theorem: the same concrete run as the
counterexample, obtained by instantiating the general theorem. -/
theorem lru_evicts_front_witness :
    mapGet (LRUCache.set
        ((LRUCache.get ([("a", ({ data := 1, timestamp := 100, version := "1.0.0" } :
            CacheEntry Nat)), ("b", { data := 2, timestamp := 200, version := "1.0.0" })])
          "a" CACHE_VERSION).2)
        2 "c" 3 300 CACHE_VERSION) "a"
      = some { data := 1, timestamp := 100, version := "1.0.0" }
    ∧ mapGet (LRUCache.set
        ((LRUCache.get ([("a", ({ data := 1, timestamp := 100, version := "1.0.0" } :
            CacheEntry Nat)), ("b", { data := 2, timestamp := 200, version := "1.0.0" })])
          "a" CACHE_VERSION).2)
        2 "c" 3 300 CACHE_VERSION) "b" = none :=
  lru_evicts_front_and_promotion_protects "a" "b" "c"
    { data := 1, timestamp := 100, version := "1.0.0" }
    { data := 2, timestamp := 200, version := "1.0.0" } [] 2 3 300
    rfl (by decide) (by decide) (by decide) (by decide) (by decide)

/-! ## Claim theorems: RateLimiter -/

theorem canMakeRequest_no_reset (s : RateLimiterState) (t : Nat)
    (h : t - s.lastReset ≤ 60000) :
    canMakeRequest s t
      = (decide (s.requests < RATE_LIMIT),
         { requests := s.requests + 1, lastReset := s.lastReset }) := by
  have h' : ¬ (t - s.lastReset > 60000) := by omega
  simp [canMakeRequest, h']

theorem runLimiter_same_window (start : Nat) (ts : List Nat) (k : Nat)
    (h : ∀ t ∈ ts, t - start ≤ 60000) :
    runLimiter { requests := k, lastReset := start } ts
      = ((List.range ts.length).map (fun i => decide (k + i < RATE_LIMIT)),
         { requests := k + ts.length, lastReset := start }) := by
  induction ts generalizing k with
  | nil => simp [runLimiter]
  | cons t ts ih =>
    have ht : t - start ≤ 60000 := h t (List.mem_cons_self t ts)
    have hrest : ∀ t' ∈ ts, t' - start ≤ 60000 :=
      fun t' ht' => h t' (List.mem_cons_of_mem t ht')
    simp only [runLimiter]
    rw [canMakeRequest_no_reset { requests := k, lastReset := start } t ht]
    rw [ih (k + 1) hrest]
    dsimp only
    refine congrArg₂ Prod.mk ?_ ?_
    · rw [List.length_cons, List.range_succ_eq_map, List.map_cons, List.map_map]
      refine congrArg₂ List.cons ?_ ?_
      · norm_num
      · apply List.map_congr_left
        intro i _
        simp [Function.comp]
        omega
    · have hn : k + 1 + ts.length = k + (t :: ts).length := by
        simp [List.length_cons]
        omega
      rw [hn]

theorem runLimiter_append (s : RateLimiterState) (xs ys : List Nat) :
    runLimiter s (xs ++ ys)
      = ((runLimiter s xs).1 ++ (runLimiter (runLimiter s xs).2 ys).1,
         (runLimiter (runLimiter s xs).2 ys).2) := by
  induction xs generalizing s with
  | nil => simp [runLimiter]
  | cons x xs ih => simp [runLimiter, ih]

/-- C4: starting from a fresh window at `start`, a sequence of calls whose
timestamps stay within 60 seconds of `start` yields `true` for exactly
the first `RATE_LIMIT` calls and `false` afterwards; a later call more
than 60 seconds past `start` resets the window, and the calls within
60 seconds of that call again yield `true` exactly 30 times (the reset
call included). -/
theorem rate_limiter_window (start t' : Nat) (ts1 ts2 : List Nat)
    (h1 : ∀ t ∈ ts1, start ≤ t ∧ t ≤ start + 60000)
    (h2 : start + 60000 < t')
    (h3 : ∀ t ∈ ts2, t' ≤ t ∧ t ≤ t' + 60000) :
    (runLimiter { requests := 0, lastReset := start } (ts1 ++ t' :: ts2)).1
      = (List.range ts1.length).map (fun i => decide (i < RATE_LIMIT))
        ++ (List.range (ts2.length + 1)).map (fun i => decide (i < RATE_LIMIT)) := by
  have h1' : ∀ t ∈ ts1, t - start ≤ 60000 := by
    intro t ht
    have := (h1 t ht).2
    omega
  have h3' : ∀ t ∈ ts2, t - t' ≤ 60000 := by
    intro t ht
    have := (h3 t ht).2
    omega
  rw [runLimiter_append]
  rw [runLimiter_same_window start ts1 0 h1']
  have hmid : canMakeRequest { requests := 0 + ts1.length, lastReset := start } t'
      = (decide (0 < RATE_LIMIT), { requests := 1, lastReset := t' }) := by
    have hreset : t' - start > 60000 := by omega
    simp [canMakeRequest, hreset]
  simp only [runLimiter, hmid]
  rw [runLimiter_same_window t' ts2 1 h3']
  dsimp only
  refine congrArg₂ (· ++ ·) ?_ ?_
  · apply List.map_congr_left
    intro i _
    simp
  · rw [List.range_succ_eq_map, List.map_cons, List.map_map]
    refine congrArg₂ List.cons ?_ ?_
    · norm_num
    · apply List.map_congr_left
      intro i _
      simp [Function.comp]
      omega

/-- Witness for C4: 35 calls inside the first window (30 `true`, then 5
`false`), then a call past the window boundary and 30 more inside the new
window (30 `true`, then 1 `false`). -/
theorem rate_limiter_window_witness :
    (runLimiter { requests := 0, lastReset := 0 }
        (List.replicate 35 60000 ++ 60001 :: List.replicate 30 60002)).1
      = (List.range (List.replicate 35 60000).length).map
          (fun i => decide (i < RATE_LIMIT))
        ++ (List.range ((List.replicate 30 60002).length + 1)).map
          (fun i => decide (i < RATE_LIMIT)) :=
  rate_limiter_window 0 60001 (List.replicate 35 60000) (List.replicate 30 60002)
    (by decide) (by decide) (by decide)

/-! ## Claim theorems: ApiCallCounter -/

theorem checkAndResetMonthly_same (s : ApiCounterState) (d : SimpleDate)
    (h : d.month = s.lastReset.month ∧ d.year = s.lastReset.year) :
    checkAndResetMonthly s d = s := by
  simp [checkAndResetMonthly, h.1, h.2]

theorem increment_same_month (s : ApiCounterState) (d : SimpleDate)
    (h : d.month = s.lastReset.month ∧ d.year = s.lastReset.year) :
    ApiCounter.increment s d
      = { count := s.count + 1, lastReset := s.lastReset } := by
  simp [ApiCounter.increment, checkAndResetMonthly_same s d h]

theorem runCounter_outputs_ge (s : ApiCounterState)
    (ops : List (CounterOp × SimpleDate))
    (h : ∀ p ∈ ops, p.2.month = s.lastReset.month ∧ p.2.year = s.lastReset.year) :
    ∀ n ∈ (runCounter s ops).1, s.count ≤ n := by
  induction ops generalizing s with
  | nil => simp [runCounter]
  | cons p ops ih =>
    obtain ⟨op, d⟩ := p
    have hd := h _ (List.mem_cons_self _ _)
    have hrest : ∀ p ∈ ops, p.2.month = s.lastReset.month
        ∧ p.2.year = s.lastReset.year :=
      fun p hp => h p (List.mem_cons_of_mem _ hp)
    cases op with
    | inc =>
      simp only [runCounter]
      rw [increment_same_month s d hd]
      intro n hn
      have := ih { count := s.count + 1, lastReset := s.lastReset } hrest n hn
      simp at this
      omega
    | read =>
      simp only [runCounter, ApiCounter.getCount]
      rw [checkAndResetMonthly_same s d hd]
      intro n hn
      simp at hn
      rcases hn with hn | hn
      · omega
      · exact ih s hrest n hn

theorem runCounter_chain (s : ApiCounterState)
    (ops : List (CounterOp × SimpleDate))
    (h : ∀ p ∈ ops, p.2.month = s.lastReset.month ∧ p.2.year = s.lastReset.year) :
    List.Chain' (· ≤ ·) (runCounter s ops).1 := by
  induction ops generalizing s with
  | nil => simp [runCounter]
  | cons p ops ih =>
    obtain ⟨op, d⟩ := p
    have hd := h _ (List.mem_cons_self _ _)
    have hrest : ∀ p ∈ ops, p.2.month = s.lastReset.month
        ∧ p.2.year = s.lastReset.year :=
      fun p hp => h p (List.mem_cons_of_mem _ hp)
    cases op with
    | inc =>
      simp only [runCounter]
      rw [increment_same_month s d hd]
      exact ih { count := s.count + 1, lastReset := s.lastReset } hrest
    | read =>
      simp only [runCounter, ApiCounter.getCount]
      rw [checkAndResetMonthly_same s d hd]
      apply List.chain'_cons'.2
      refine ⟨?_, ih s hrest⟩
      intro b hb
      exact runCounter_outputs_ge s ops hrest b (List.mem_of_mem_head? hb)

/-- C5: a sequence of `increment`/`getCount` calls whose dates stay in the
calendar month of `lastReset` yields monotonically non-decreasing
`getCount` values; when the month or year differs, the state is reset to
count 0 with `lastReset` set to now, and a single `increment` after the
boundary makes `getCount` return exactly 1. -/
theorem counter_monthly_behavior (s : ApiCounterState)
    (ops : List (CounterOp × SimpleDate)) (d : SimpleDate)
    (hops : ∀ p ∈ ops, p.2.month = s.lastReset.month ∧ p.2.year = s.lastReset.year)
    (hd : s.lastReset.month ≠ d.month ∨ s.lastReset.year ≠ d.year) :
    List.Chain' (· ≤ ·) (runCounter s ops).1
    ∧ checkAndResetMonthly s d = { count := 0, lastReset := d }
    ∧ (ApiCounter.getCount (ApiCounter.increment s d) d).1 = 1 := by
  refine ⟨runCounter_chain s ops hops, ?_, ?_⟩
  · simp [checkAndResetMonthly, hd]
  · simp [ApiCounter.increment, ApiCounter.getCount, checkAndResetMonthly, hd]

/-- Witness for C5: two increments and reads in 2025-09 (month index 8),
then a boundary crossing into 2025-10 (month index 9). -/
theorem counter_monthly_behavior_witness :
    List.Chain' (· ≤ ·)
      (runCounter { count := 0, lastReset := { year := 2025, month := 8 } }
        [(CounterOp.inc, { year := 2025, month := 8 }),
         (CounterOp.read, { year := 2025, month := 8 }),
         (CounterOp.inc, { year := 2025, month := 8 }),
         (CounterOp.read, { year := 2025, month := 8 })]).1
    ∧ checkAndResetMonthly { count := 0, lastReset := { year := 2025, month := 8 } }
        { year := 2025, month := 9 }
      = { count := 0, lastReset := { year := 2025, month := 9 } }
    ∧ (ApiCounter.getCount
        (ApiCounter.increment { count := 0, lastReset := { year := 2025, month := 8 } }
          { year := 2025, month := 9 })
        { year := 2025, month := 9 }).1 = 1 :=
  counter_monthly_behavior { count := 0, lastReset := { year := 2025, month := 8 } }
    [(CounterOp.inc, { year := 2025, month := 8 }),
     (CounterOp.read, { year := 2025, month := 8 }),
     (CounterOp.inc, { year := 2025, month := 8 }),
     (CounterOp.read, { year := 2025, month := 8 })]
    { year := 2025, month := 9 } (by decide) (by decide)

/-! ## Claim theorems: fetchApi retry loop -/

theorem fetchGo_increments_of_pos {α : Type} (outcomes : Nat → AttemptOutcome α) :
    ∀ r a, a ≠ 0 → (fetchGo outcomes a r).increments = 0 := by
  intro r
  induction r with
  | zero =>
    intro a ha
    cases h : outcomes a with
    | ok d => simp [fetchGo, h, ha]
    | err name msg =>
      by_cases hr : isRetryable name msg = false <;> simp [fetchGo, h, ha, hr]
  | succ r ih =>
    intro a ha
    cases h : outcomes a with
    | ok d => simp [fetchGo, h, ha]
    | err name msg =>
      by_cases hr : isRetryable name msg = false
      · simp [fetchGo, h, ha, hr]
      · simp [fetchGo, h, ha, hr, ih (a + 1) (by omega)]

theorem fetchGo_increments_zero {α : Type} (outcomes : Nat → AttemptOutcome α)
    (r : Nat) : (fetchGo outcomes 0 r).increments = 1 := by
  cases r with
  | zero =>
    cases h : outcomes 0 with
    | ok d => simp [fetchGo, h]
    | err name msg =>
      by_cases hr : isRetryable name msg = false <;> simp [fetchGo, h, hr]
  | succ r =>
    cases h : outcomes 0 with
    | ok d => simp [fetchGo, h]
    | err name msg =>
      by_cases hr : isRetryable name msg = false
      · simp [fetchGo, h, hr]
      · simp [fetchGo, h, hr, fetchGo_increments_of_pos outcomes r 1 (by omega)]

theorem fetchGo_attempts_pos {α : Type} (outcomes : Nat → AttemptOutcome α)
    (a r : Nat) : 1 ≤ (fetchGo outcomes a r).attempts := by
  cases r with
  | zero =>
    cases h : outcomes a with
    | ok d => simp [fetchGo, h]
    | err name msg =>
      by_cases hr : isRetryable name msg = false <;> simp [fetchGo, h, hr]
  | succ r =>
    cases h : outcomes a with
    | ok d => simp [fetchGo, h]
    | err name msg =>
      by_cases hr : isRetryable name msg = false
      · simp [fetchGo, h, hr]
      · simp [fetchGo, h, hr]

/-- C3: with the rate limiter passing, an attempt failing with an error
that is neither an abort/timeout nor a `"network"`-containing message is
thrown at once (1 attempt, no delays); an attempt failing retryably is
retried after waiting `getRetryDelay attempt` (a succeeding retry
returns its data), for up to `maxRetries` further attempts with delays
`getRetryDelay 0 = 1000 < getRetryDelay 1 = 2000`
(`min(baseDelay·2^attempt, 5000)` before each retry), and the generic
network error is raised when the final attempt still fails retryably. -/
theorem fetchApi_retry_classification {α : Type}
    (outcomes : Nat → AttemptOutcome α) (lim : RateLimiterState) (nowMs : Nat)
    (hlim : (canMakeRequest lim nowMs).1 = true) :
    (∀ name msg, outcomes 0 = .err name msg → isRetryable name msg = false →
      (fetchApiTrace outcomes lim nowMs).1
        = { result := .error msg, attempts := 1, delays := [], increments := 1 })
    ∧ (∀ name msg d, outcomes 0 = .err name msg → isRetryable name msg = true →
        outcomes 1 = .ok d →
      (fetchApiTrace outcomes lim nowMs).1
        = { result := .ok d, attempts := 2, delays := [getRetryDelay 0],
            increments := 1 })
    ∧ ((∀ i, i ≤ maxRetries →
          ∃ name msg, outcomes i = .err name msg ∧ isRetryable name msg = true) →
      (fetchApiTrace outcomes lim nowMs).1
        = { result := .error NETWORK_ERROR_MSG, attempts := maxRetries + 1,
            delays := [getRetryDelay 0, getRetryDelay 1], increments := 1 })
    ∧ getRetryDelay 0 = 1000 ∧ getRetryDelay 1 = 2000
    ∧ (∀ a, getRetryDelay a = min (baseDelay * 2 ^ a) 5000) := by
  rcases hcan : canMakeRequest lim nowMs with ⟨ok, lim'⟩
  rw [hcan] at hlim
  simp only at hlim
  have htr : fetchApiTrace outcomes lim nowMs = (fetchGo outcomes 0 maxRetries, lim') := by
    simp [fetchApiTrace, hcan, hlim]
  refine ⟨?_, ?_, ?_, rfl, rfl, fun a => rfl⟩
  · intro name msg h0 hret
    rw [htr]
    show fetchGo outcomes 0 maxRetries = _
    rw [show maxRetries = 2 from rfl]
    simp [fetchGo, h0, hret]
  · intro name msg d h0 hret h1
    rw [htr]
    show fetchGo outcomes 0 maxRetries = _
    rw [show maxRetries = 2 from rfl]
    simp [fetchGo, h0, hret, h1]
  · intro hall
    obtain ⟨n0, m0, h0, r0⟩ := hall 0 (by decide)
    obtain ⟨n1, m1, h1, r1⟩ := hall 1 (by decide)
    obtain ⟨n2, m2, h2, r2⟩ := hall 2 (by decide)
    rw [htr]
    show fetchGo outcomes 0 maxRetries = _
    rw [show maxRetries = 2 from rfl]
    simp [fetchGo, h0, r0, h1, r1, h2, r2]

/-- Witness for C3: every attempt aborts (timeout); three attempts, two
backoff delays, the generic network error. -/
theorem fetchApi_retry_classification_witness :
    (fetchApiTrace (fun _ => (AttemptOutcome.err "AbortError" "aborted" :
        AttemptOutcome Nat)) { requests := 0, lastReset := 0 } 0).1
      = { result := .error NETWORK_ERROR_MSG, attempts := maxRetries + 1,
          delays := [getRetryDelay 0, getRetryDelay 1], increments := 1 } :=
  (fetchApi_retry_classification (fun _ => AttemptOutcome.err "AbortError" "aborted")
      { requests := 0, lastReset := 0 } 0 (by decide)).2.2.1
    (fun i _ => ⟨"AbortError", "aborted", rfl, by decide⟩)

/-- C9: when the rate limiter passes, a `fetchApi` run increments the
usage counter exactly once (and makes at least one attempt); the
increment happens on attempt 0 only — the loop entered at any later
attempt index performs no increment — and a rate-limit rejection makes
no attempt and no increment. -/
theorem usage_counter_single_increment {α : Type}
    (outcomes : Nat → AttemptOutcome α) (lim : RateLimiterState) (nowMs : Nat) :
    ((canMakeRequest lim nowMs).1 = true →
      (fetchApiTrace outcomes lim nowMs).1.increments = 1
      ∧ 1 ≤ (fetchApiTrace outcomes lim nowMs).1.attempts)
    ∧ ((canMakeRequest lim nowMs).1 = false →
      (fetchApiTrace outcomes lim nowMs).1.increments = 0
      ∧ (fetchApiTrace outcomes lim nowMs).1.attempts = 0)
    ∧ (∀ a r, a ≠ 0 → (fetchGo outcomes a r).increments = 0) := by
  rcases hcan : canMakeRequest lim nowMs with ⟨ok, lim'⟩
  refine ⟨?_, ?_, fun a r ha => fetchGo_increments_of_pos outcomes r a ha⟩
  · intro h
    have hok : ok = true := h
    have htr : fetchApiTrace outcomes lim nowMs
        = (fetchGo outcomes 0 maxRetries, lim') := by
      simp [fetchApiTrace, hcan, hok]
    rw [htr]
    exact ⟨fetchGo_increments_zero outcomes maxRetries,
      fetchGo_attempts_pos outcomes 0 maxRetries⟩
  · intro h
    have hok : ok = false := h
    have htr : fetchApiTrace outcomes lim nowMs
        = ({ result := .error RATE_LIMIT_MSG, attempts := 0, delays := [],
             increments := 0 }, lim') := by
      simp [fetchApiTrace, hcan, hok]
    rw [htr]
    exact ⟨rfl, rfl⟩

/-- Witness for C9: a passing run increments once; a saturated limiter
(30 requests already in the window) yields no attempt and no increment. -/
theorem usage_counter_single_increment_witness :
    ((fetchApiTrace (fun _ => (AttemptOutcome.ok 7 : AttemptOutcome Nat))
        { requests := 0, lastReset := 0 } 0).1.increments = 1
      ∧ 1 ≤ (fetchApiTrace (fun _ => (AttemptOutcome.ok 7 : AttemptOutcome Nat))
        { requests := 0, lastReset := 0 } 0).1.attempts)
    ∧ ((fetchApiTrace (fun _ => (AttemptOutcome.ok 7 : AttemptOutcome Nat))
        { requests := 30, lastReset := 0 } 0).1.increments = 0
      ∧ (fetchApiTrace (fun _ => (AttemptOutcome.ok 7 : AttemptOutcome Nat))
        { requests := 30, lastReset := 0 } 0).1.attempts = 0) :=
  ⟨(usage_counter_single_increment (fun _ => AttemptOutcome.ok 7)
      { requests := 0, lastReset := 0 } 0).1 (by decide),
   (usage_counter_single_increment (fun _ => AttemptOutcome.ok 7)
      { requests := 30, lastReset := 0 } 0).2.1 (by decide)⟩

/-! ## Claim theorems: searchCities error handling -/

/-- C2 counterexample: with a non-blank query of sufficient length but the
API key missing, `searchCities` throws the key-missing error instead of
returning the empty list — `validateApiKey()` runs outside the
`try`/`catch` that swallows downstream failures. -/
theorem searchCities_missing_key_throws_cex :
    (searchCities "london" false
      { cityCache := [], weatherCache := [],
        limiter := { requests := 0, lastReset := 0 },
        counter := { count := 0, lastReset := { year := 2025, month := 8 } } }
      0 { year := 2025, month := 8 } (fun _ => AttemptOutcome.ok [])).1
      = Except.error API_KEY_MISSING_MSG := by
  have hguard : ¬ (jsTrim "london" = "" ∨ ("london").length < MIN_QUERY_LENGTH) := by
    decide
  simp [searchCities, hguard]

/-- C2 amended: `searchCities` returns the empty list for blank or
too-short queries, and — once the API key is configured — degrades every
downstream failure of the fetch (rate-limit rejection, network/timeout,
provider error) to the empty list; only a missing API key escapes, being
checked before the guarded region. -/
theorem searchCities_amended (query : String) (st : ApiState) (nowMs : Nat)
    (nowDate : SimpleDate)
    (outcomes : Nat → AttemptOutcome (List CitySearchApiResponse)) (msg : String) :
    (jsTrim query = "" ∨ query.length < MIN_QUERY_LENGTH →
      (searchCities query true st nowMs nowDate outcomes).1 = .ok [])
    ∧ (mapGet st.cityCache (sanitizeInput query) = none →
       (fetchApiTrace outcomes st.limiter nowMs).1.result = .error msg →
       (searchCities query true st nowMs nowDate outcomes).1 = .ok []) := by
  constructor
  · intro hq
    simp [searchCities, hq]
  · intro hmiss herr
    by_cases hq : jsTrim query = "" ∨ query.length < MIN_QUERY_LENGTH
    · simp [searchCities, hq]
    · rcases hp : fetchApiTrace outcomes st.limiter nowMs with ⟨t, lim'⟩
      rw [hp] at herr
      simp only at herr
      simp [searchCities, hq, LRUCache.get, hmiss, searchCitiesFetch, fetchApiM,
        hp, herr]

/-- Witness for the amended C2 theorem: a 1-character query returns the
empty list; a valid query whose fetch fails with a provider error also
returns the empty list. -/
theorem searchCities_amended_witness :
    (searchCities "a" true
      { cityCache := [], weatherCache := [],
        limiter := { requests := 0, lastReset := 0 },
        counter := { count := 0, lastReset := { year := 2025, month := 8 } } }
      0 { year := 2025, month := 8 } (fun _ => AttemptOutcome.ok [])).1 = .ok []
    ∧ (searchCities "london" true
      { cityCache := [], weatherCache := [],
        limiter := { requests := 0, lastReset := 0 },
        counter := { count := 0, lastReset := { year := 2025, month := 8 } } }
      0 { year := 2025, month := 8 }
      (fun _ => AttemptOutcome.err "Error" "No matching location found. (Status: 400)")).1
      = .ok [] :=
  ⟨(searchCities_amended "a" _ 0 _ _ "x").1 (Or.inr (by decide)),
   (searchCities_amended "london" _ 0 _ _
      "No matching location found. (Status: 400)").2 rfl rfl⟩

/-! ## Claim theorems: getWeatherData transform -/

/-- C8: a successful fetch path of `getWeatherData` returns the
transformed payload, in which `temp`, `feels_like`, `temp_min` and
`temp_max` are the provider's Celsius values rounded to the nearest whole
degree (the current payload carries a single `temp_c`, which feeds
`temp`, `temp_min` and `temp_max`) and wind speed is
`Math.round(wind_kph / 3.6)`; the spec scenario `temp_c 18.6,
wind_kph 10.8` yields `temp 19` and wind speed `3`. -/
theorem weather_transform_fields (city : String) (st : ApiState) (nowMs : Nat)
    (nowDate : SimpleDate) (outcomes : Nat → AttemptOutcome WeatherApiResponse)
    (data : WeatherApiResponse)
    (hcity : jsTrim city ≠ "")
    (hmiss : mapGet st.weatherCache ("weather_" ++ sanitizeInput city) = none)
    (hfetch : (fetchApiTrace outcomes st.limiter nowMs).1.result = .ok data) :
    (getWeatherData city true st nowMs nowDate outcomes).1
      = .ok (.weather (transformWeather data))
    ∧ (transformWeather data).main.temp = jsRound data.current.temp_c
    ∧ (transformWeather data).main.feels_like = jsRound data.current.feelslike_c
    ∧ (transformWeather data).main.temp_min = jsRound data.current.temp_c
    ∧ (transformWeather data).main.temp_max = jsRound data.current.temp_c
    ∧ (transformWeather data).wind.speed
        = jsRound (data.current.wind_kph / (36 / 10))
    ∧ (transformWeather parisPayload).main.temp = 19
    ∧ (transformWeather parisPayload).wind.speed = 3 := by
  refine ⟨?_, rfl, rfl, rfl, rfl, rfl, ?_, ?_⟩
  · rcases hp : fetchApiTrace outcomes st.limiter nowMs with ⟨t, lim'⟩
    rw [hp] at hfetch
    simp only at hfetch
    simp [getWeatherData, hcity, LRUCache.get, hmiss, getWeatherDataFetch,
      fetchApiM, hp, hfetch]
  · simp only [transformWeather, parisPayload]
    norm_num [jsRound]
  · simp only [transformWeather, parisPayload]
    norm_num [jsRound]

/-- Witness for C8: the Paris scenario run end-to-end on an empty cache. -/
theorem weather_transform_fields_witness :
    (getWeatherData "paris" true
      { cityCache := [], weatherCache := [],
        limiter := { requests := 0, lastReset := 0 },
        counter := { count := 0, lastReset := { year := 2025, month := 8 } } }
      0 { year := 2025, month := 8 } (fun _ => AttemptOutcome.ok parisPayload)).1
      = .ok (.weather (transformWeather parisPayload))
    ∧ (transformWeather parisPayload).main.temp = jsRound parisPayload.current.temp_c
    ∧ (transformWeather parisPayload).main.feels_like
        = jsRound parisPayload.current.feelslike_c
    ∧ (transformWeather parisPayload).main.temp_min
        = jsRound parisPayload.current.temp_c
    ∧ (transformWeather parisPayload).main.temp_max
        = jsRound parisPayload.current.temp_c
    ∧ (transformWeather parisPayload).wind.speed
        = jsRound (parisPayload.current.wind_kph / (36 / 10))
    ∧ (transformWeather parisPayload).main.temp = 19
    ∧ (transformWeather parisPayload).wind.speed = 3 :=
  weather_transform_fields "paris"
    { cityCache := [], weatherCache := [],
      limiter := { requests := 0, lastReset := 0 },
      counter := { count := 0, lastReset := { year := 2025, month := 8 } } }
    0 { year := 2025, month := 8 } (fun _ => AttemptOutcome.ok parisPayload)
    parisPayload (by decide) rfl rfl

/-! ## Claim theorems: cache-hit frame property -/

/-- C10: when `getWeatherData` or `getForecastData` finds a cache entry
under its request key whose version matches the live cache version and
whose timestamp is within `CACHE_DURATION` of now, it returns the cached
data and performs no fetch: the usage-counter state and the rate-limiter
state are exactly the same after the call as before it (only the cache
order changes, by LRU promotion). -/
theorem cache_hit_no_fetch (city : String) (st : ApiState) (nowMs : Nat)
    (nowDate : SimpleDate) (hcity : jsTrim city ≠ "") :
    (∀ (outcomes : Nat → AttemptOutcome WeatherApiResponse)
       (e : CacheEntry CachedData),
      mapGet st.weatherCache ("weather_" ++ sanitizeInput city) = some e →
      e.version = CACHE_VERSION →
      isCacheValid nowMs e.timestamp = true →
      (getWeatherData city true st nowMs nowDate outcomes).1 = .ok e.data
      ∧ (getWeatherData city true st nowMs nowDate outcomes).2.counter = st.counter
      ∧ (getWeatherData city true st nowMs nowDate outcomes).2.limiter = st.limiter)
    ∧ (∀ (parseDateMs : String → Rat)
       (outcomesF : Nat → AttemptOutcome ForecastApiResponse)
       (e : CacheEntry CachedData),
      mapGet st.weatherCache ("forecast_" ++ sanitizeInput city) = some e →
      e.version = CACHE_VERSION →
      isCacheValid nowMs e.timestamp = true →
      (getForecastData city true st nowMs nowDate parseDateMs outcomesF).1
        = .ok e.data
      ∧ (getForecastData city true st nowMs nowDate parseDateMs outcomesF).2.counter
        = st.counter
      ∧ (getForecastData city true st nowMs nowDate parseDateMs outcomesF).2.limiter
        = st.limiter) := by
  constructor
  · intro outcomes e hk hver hfresh
    have hget : LRUCache.get st.weatherCache ("weather_" ++ sanitizeInput city)
        CACHE_VERSION
        = (some e,
           mapSet (mapDelete st.weatherCache ("weather_" ++ sanitizeInput city))
             ("weather_" ++ sanitizeInput city) e) := by
      simp [LRUCache.get, hk, hver]
    refine ⟨?_, ?_, ?_⟩ <;>
      simp [getWeatherData, hcity, hget, hfresh]
  · intro parseDateMs outcomesF e hk hver hfresh
    have hget : LRUCache.get st.weatherCache ("forecast_" ++ sanitizeInput city)
        CACHE_VERSION
        = (some e,
           mapSet (mapDelete st.weatherCache ("forecast_" ++ sanitizeInput city))
             ("forecast_" ++ sanitizeInput city) e) := by
      simp [LRUCache.get, hk, hver]
    refine ⟨?_, ?_, ?_⟩ <;>
      simp [getForecastData, hcity, hget, hfresh]

/-- Witness for C10: a state holding fresh entries for both the weather
and the forecast key of the city `paris`. -/
theorem cache_hit_no_fetch_witness :
    ((getWeatherData "paris" true
        { cityCache := [],
          weatherCache :=
            [("weather_" ++ sanitizeInput "paris",
              { data := .weather (transformWeather parisPayload), timestamp := 100,
                version := CACHE_VERSION }),
             ("forecast_" ++ sanitizeInput "paris",
              { data := .weather (transformWeather parisPayload), timestamp := 150,
                version := CACHE_VERSION })],
          limiter := { requests := 3, lastReset := 50 },
          counter := { count := 9, lastReset := { year := 2025, month := 8 } } }
        200 { year := 2025, month := 8 } (fun _ => AttemptOutcome.ok parisPayload)).1
      = .ok (.weather (transformWeather parisPayload))
      ∧ (getWeatherData "paris" true
        { cityCache := [],
          weatherCache :=
            [("weather_" ++ sanitizeInput "paris",
              { data := .weather (transformWeather parisPayload), timestamp := 100,
                version := CACHE_VERSION }),
             ("forecast_" ++ sanitizeInput "paris",
              { data := .weather (transformWeather parisPayload), timestamp := 150,
                version := CACHE_VERSION })],
          limiter := { requests := 3, lastReset := 50 },
          counter := { count := 9, lastReset := { year := 2025, month := 8 } } }
        200 { year := 2025, month := 8 } (fun _ => AttemptOutcome.ok parisPayload)).2.counter
      = { count := 9, lastReset := { year := 2025, month := 8 } }
      ∧ (getWeatherData "paris" true
        { cityCache := [],
          weatherCache :=
            [("weather_" ++ sanitizeInput "paris",
              { data := .weather (transformWeather parisPayload), timestamp := 100,
                version := CACHE_VERSION }),
             ("forecast_" ++ sanitizeInput "paris",
              { data := .weather (transformWeather parisPayload), timestamp := 150,
                version := CACHE_VERSION })],
          limiter := { requests := 3, lastReset := 50 },
          counter := { count := 9, lastReset := { year := 2025, month := 8 } } }
        200 { year := 2025, month := 8 } (fun _ => AttemptOutcome.ok parisPayload)).2.limiter
      = { requests := 3, lastReset := 50 }) := by
  exact (cache_hit_no_fetch "paris" _ 200 { year := 2025, month := 8 }
      (by decide)).1
    (fun _ => AttemptOutcome.ok parisPayload)
    { data := .weather (transformWeather parisPayload), timestamp := 100,
      version := CACHE_VERSION }
    (by simp [mapGet]) rfl (by decide)

end WeatherApp
